import Mathlib

/-! Verification development for the Cosmoglobe sky-component
frequency-scaling engine.  The definitions below are shallow embeddings of
the spectral scaling kernels in `cosmoglobe/sky/components.py`,
`cosmoglobe/models/ff.py` and `cosmoglobe/sky/components/cmb.py`, and of the
validation layer in `cosmoglobe/sky/base_components.py`.  Array values are
modelled as lists (rationals where exact evaluation is needed, reals for the
transcendental kernels); astropy quantities are modelled as a shape together
with a physical-dimension vector. -/

namespace Cosmoglobe

/-- Minimum of a list of rationals, as computed by `np.min` on a nonempty
array; the empty case (where numpy would raise) is mapped to 0. -/
def listMin : List ℚ → ℚ
  | [] => 0
  | x :: xs => xs.foldl min x

/-- Maximum of a list of rationals, as computed by `np.max` on a nonempty
array; the empty case is mapped to 0. -/
def listMax : List ℚ → ℚ
  | [] => 0
  | x :: xs => xs.foldl max x

/-- Interior walk of `np.interp`: given the current table point `(xa, ya)`
and the remaining table columns, linearly interpolate on the first segment
whose right endpoint reaches `x`, clamping to the last amplitude past the
right end of the table. -/
def npInterpGo (x : ℚ) : ℚ → ℚ → List ℚ → List ℚ → ℚ
  | _, ya, [], _ => ya
  | _, ya, _ :: _, [] => ya
  | xa, ya, xb :: xs, yb :: ys =>
    if x ≤ xb then ya + (x - xa) * (yb - ya) / (xb - xa)
    else npInterpGo x xb yb xs ys

/-- `np.interp(x, xp, fp)`: piecewise-linear interpolation through the points
`(xp i, fp i)` (with `xp` increasing), clamping to the endpoint amplitudes
for queries outside the table range; 0 on a malformed (empty) table. -/
def npInterp (x : ℚ) : List ℚ → List ℚ → ℚ
  | x0 :: xs, y0 :: ys => if x ≤ x0 then y0 else npInterpGo x x0 y0 xs ys
  | _, _ => 0

/-- Result of `AME._get_freq_scaling`: either the scalar dimensionless zero
sentinel returned by the early out-of-range branch, or the array of
interpolation ratios. -/
inductive AmeOut where
  | scalarZero
  | vals (xs : List ℚ)
deriving DecidableEq

/-- `AME._get_freq_scaling` (`cosmoglobe/sky/components.py`): with
`peak_scale = 30 GHz / nu_p`, return the scalar dimensionless zero unless
every scaled frequency `freq * peak_scale` lies strictly between the minimum
and maximum of the template frequencies; otherwise return the template
interpolated at `freq * peak_scale` divided by the template interpolated at
`freq_ref * peak_scale`.  All frequencies are represented in the unit of the
template's frequency column (the SI conversion in the source applies a common
positive factor to query and table, which leaves both the range test and the
interpolation ratio unchanged). -/
def ameGetFreqScaling (tableFreq tableAmp : List ℚ) (freq : List ℚ)
    (freq_ref nu_p : ℚ) : AmeOut :=
  let peak_scale := 30 / nu_p
  if ¬ (freq.all fun f =>
      decide (listMin tableFreq < f * peak_scale) &&
      decide (f * peak_scale < listMax tableFreq)) then
    AmeOut.scalarZero
  else
    AmeOut.vals (freq.map fun f =>
      npInterp (f * peak_scale) tableFreq tableAmp /
        npInterp (freq_ref * peak_scale) tableFreq tableAmp)

/-- State of a `CMB` component instance (`cosmoglobe/sky/components.py`):
the intensity row `amp[0]`, the remaining Stokes rows, and the dynamically
added `dipole` attribute (`none` until `remove_dipole` has run). -/
structure CMBState where
  amp0 : List ℚ
  ampRest : List (List ℚ)
  dipole : Option (List ℚ)
deriving DecidableEq

/-- `CMB.get_dipole` (`cosmoglobe/sky/components.py`), parameterized by the
external `healpy.remove_dipole` fit (a function from the intensity map and
`gal_cut` to the dipole-subtracted map).  Returns the dipole map, a flag
recording whether the diagnostic warning (cached dipole returned, `gal_cut`
ignored) was emitted, and the component state after the call. -/
def getDipole (hpRemoveDipole : List ℚ → ℚ → List ℚ) (s : CMBState)
    (gal_cut : ℚ) : List ℚ × Bool × CMBState :=
  match s.dipole with
  | some d => (d, true, s)
  | none =>
    let amp_without_dipole := hpRemoveDipole s.amp0 gal_cut
    (List.zipWith (fun a b => a - b) s.amp0 amp_without_dipole, false, s)

/-- `CMB.remove_dipole` (`cosmoglobe/sky/components.py`): fit the dipole,
cache `amp[0] - amp_without_dipole` in the `dipole` attribute, and overwrite
`amp[0]` with the dipole-subtracted map. -/
def removeDipole (hpRemoveDipole : List ℚ → ℚ → List ℚ) (s : CMBState)
    (gal_cut : ℚ) : CMBState :=
  let amp_without_dipole := hpRemoveDipole s.amp0 gal_cut
  ⟨amp_without_dipole, s.ampRest,
    some (List.zipWith (fun a b => a - b) s.amp0 amp_without_dipole)⟩

/-- Planck constant in SI units (CODATA value used by `astropy.constants`). -/
noncomputable def hPlanck : ℝ := 6.62607015e-34

/-- Boltzmann constant in SI units (CODATA value used by
`astropy.constants`). -/
noncomputable def kBoltzmann : ℝ := 1.380649e-23

/-- Speed of light in SI units. -/
noncomputable def cLight : ℝ := 299792458

/-- CMB monopole temperature in K (`T_0 = 2.7255 K` as of BP9). -/
noncomputable def T0cmb : ℝ := 2.7255

/-- `Synchrotron._get_freq_scaling` (`cosmoglobe/sky/components.py`):
`(freq/freq_ref)**beta`. -/
noncomputable def synchrotronGetFreqScaling (freq freq_ref beta : ℝ) : ℝ :=
  (freq / freq_ref) ^ beta

/-- `Radio._get_freq_scaling` (`cosmoglobe/sky/components.py`):
`(freq/freq_ref)**(specind-2)`. -/
noncomputable def radioGetFreqScaling (freq freq_ref specind : ℝ) : ℝ :=
  (freq / freq_ref) ^ (specind - 2)

/-- Modelled from the spec: `cosmoglobe.utils.functions.blackbody_emission`
is not under src/ (only its caller `Dust._get_freq_scaling` is).  Spec §4.4
defines it as the Planck blackbody spectral radiance at temperature `T`,
evaluated stably via `expm1`:
`B(freq, T) = (2 h freq^3 / c^2) / expm1(h freq / (k_B T))`. -/
noncomputable def blackbody_emission (freq T : ℝ) : ℝ :=
  (2 * hPlanck * freq ^ (3 : ℕ) / cLight ^ (2 : ℕ)) /
    (Real.exp (hPlanck * freq / (kBoltzmann * T)) - 1)

/-- `Dust._get_freq_scaling` (`cosmoglobe/sky/components.py`):
`(freq/freq_ref)**(beta-2)` times the ratio of blackbody emissions at `freq`
and `freq_ref`. -/
noncomputable def dustGetFreqScaling (freq freq_ref beta T : ℝ) : ℝ :=
  (freq / freq_ref) ^ (beta - 2) *
    (blackbody_emission freq T / blackbody_emission freq_ref T)

/-- `gaunt_factor` (`cosmoglobe/models/ff.py`):
`np.log(np.exp(5.96 - (np.sqrt(3)/np.pi) * np.log(nu * (T_e*1e-4)**-1.5)) + np.e)`. -/
noncomputable def gaunt_factor (nu T_e : ℝ) : ℝ :=
  Real.log
    (Real.exp
        (5.96 - Real.sqrt 3 / Real.pi *
          Real.log (nu * (T_e * 1e-4) ^ (-1.5 : ℝ))) +
      Real.exp 1)

/-- `T_e.astype(np.float64)` (`cosmoglobe/models/ff.py`): the float32 to
float64 widening cast is exact on every representable value, so its shadow on
the embedded real value is the identity. -/
noncomputable def astype_float64 (x : ℝ) : ℝ := x

/-- `LinearOpticallyThin._get_freq_scaling` (`cosmoglobe/models/ff.py`):
cast `T_e` to double precision, form the Gaunt-factor ratio, then multiply by
`(nu_ref/nu)**2`. -/
noncomputable def linearOpticallyThinGetFreqScaling (nu nu_ref T_e : ℝ) : ℝ :=
  let T_e64 := astype_float64 T_e
  gaunt_factor nu T_e64 / gaunt_factor nu_ref T_e64 * (nu_ref / nu) ^ (2 : ℕ)

/-- The Gaunt factor exactly as the spec §4.5 writes it:
`Gaunt(nu, Te) = ln( exp(5.96 − (√3/π)·ln(nu·(Te·1e−4)^−1.5)) + e )`. -/
noncomputable def gauntSpecFormula (nu Te : ℝ) : ℝ :=
  Real.log
    (Real.exp
        (5.96 - Real.sqrt 3 / Real.pi *
          Real.log (nu * (Te * 1e-4) ^ (-1.5 : ℝ))) +
      Real.exp 1)

/-- `thermodynamical_to_brightness` as inlined in
`CMB.get_freq_scaling` (`cosmoglobe/sky/components/cmb.py`):
`x = h*freq/(k_B*T_0)`; `x**2 * exp(x) / expm1(x)**2`. -/
noncomputable def thermodynamicalToBrightness (freq : ℝ) : ℝ :=
  let x := hPlanck * freq / (kBoltzmann * T0cmb)
  x ^ (2 : ℕ) * Real.exp x / (Real.exp x - 1) ^ (2 : ℕ)

/-- `CMB.get_freq_scaling` (`cosmoglobe/sky/components/cmb.py`): the scalar
conversion applied elementwise to the frequencies, wrapped by
`np.expand_dims(..., axis=0)` in a synthetic leading Stokes axis of size 1. -/
noncomputable def cmbGetFreqScaling (freqs : List ℝ) : List (List ℝ) :=
  [freqs.map thermodynamicalToBrightness]

/-- Physical dimension of a unit: integer exponents of time, length, mass,
temperature and angle.  This is the fragment of astropy's unit algebra the
validators consult. -/
structure Dim where
  time : ℤ
  length : ℤ
  mass : ℤ
  temp : ℤ
  angle : ℤ
deriving DecidableEq

/-- Dimension of a frequency unit (Hz, GHz). -/
def freqDim : Dim := ⟨-1, 0, 0, 0, 0⟩

/-- Dimension of a wavelength unit (m). -/
def wavelengthDim : Dim := ⟨0, 1, 0, 0, 0⟩

/-- Dimension of a wavenumber unit (1/m). -/
def waveNumberDim : Dim := ⟨0, -1, 0, 0, 0⟩

/-- Dimension of an energy unit (J, eV). -/
def energyDim : Dim := ⟨-2, 2, 1, 0, 0⟩

/-- Dimension of a temperature unit (K, uK, uK_RJ). -/
def tempDim : Dim := ⟨0, 0, 0, 1, 0⟩

/-- Dimension of a spectral flux density unit (Jy, mJy). -/
def janskyDim : Dim := ⟨-2, 0, 1, 0, 0⟩

/-- Dimension of solid angle (steradian, i.e. radian squared). -/
def steradianDim : Dim := ⟨0, 0, 0, 0, 2⟩

/-- Quotient of two dimensions (unit division). -/
def divDim (a b : Dim) : Dim :=
  ⟨a.time - b.time, a.length - b.length, a.mass - b.mass, a.temp - b.temp,
    a.angle - b.angle⟩

/-- Dimension of surface brightness (Jy/sr). -/
def jyPerSrDim : Dim := divDim janskyDim steradianDim

/-- Modelled from the spec: the astropy `spectral()` equivalence used by
`_validate_freq_ref` (astropy itself is an external collaborator; the default
frequency unit lives in `cosmoglobe/sky/_constants.py`, which is not under
src/).  A quantity converts to the default frequency unit directly when it is
frequency-dimensioned, or via the spectral equivalence when it is a
wavelength, wavenumber or photon energy. -/
def spectralConvertible (d : Dim) : Bool :=
  d == freqDim || d == wavelengthDim || d == waveNumberDim || d == energyDim

/-- Modelled from the spec: the astropy `brightness_temperature(freq_ref)`
equivalence used by the amplitude validators.  A quantity converts to the
default output unit (a temperature unit) directly when temperature
dimensioned, or through the frequency-dependent equivalence when it is a
surface brightness (Jy/sr). -/
def brightnessTempConvertible (d : Dim) : Bool :=
  d == tempDim || d == jyPerSrDim

/-- An astropy quantity as the validators see it: an array shape together
with the physical dimension of its unit (the array values never influence
validation). -/
structure PQ where
  shape : List ℕ
  dim : Dim
deriving DecidableEq

/-- A validator input: either a bare array with no unit tag (not an astropy
`Quantity`), or a tagged quantity. -/
inductive MaybeQuantity where
  | notQuantity
  | quantity (q : PQ)
deriving DecidableEq

/-- The error kinds the validation layer raises: `TypeError`, the
`ValueError` shape errors, astropy `UnitsError`, and the `NsideError`
resolution error. -/
inductive VError where
  | typeErr
  | shapeErr
  | unitErr
  | resolutionErr
deriving DecidableEq

/-- `shape[0]` of a numpy shape. -/
def leadingDim (s : List ℕ) : ℕ := s.headD 0

/-- `shape[-1]` of a numpy shape (the axis `healpy.get_nside` inspects). -/
def trailingDim (s : List ℕ) : ℕ := s.getLastD 0

/-- `shape[1]` of a numpy shape. -/
def secondDim (s : List ℕ) : ℕ := s.getD 1 0

/-- Whether a natural number is a power of two. -/
def isPow2 (n : ℕ) : Bool := n != 0 && (n &&& (n - 1)) == 0

/-- Modelled from the spec: validity of a HEALPix pixel count as checked by
`healpy.get_nside` (healpy is an external collaborator).  Per the spec's
glossary, valid pixel counts are `12 * nside^2` for `nside` a power of
two. -/
def isValidNpix (npix : ℕ) : Bool :=
  let nside := Nat.sqrt (npix / 12)
  12 * nside * nside == npix && isPow2 nside

/-- `SkyComponent._validate_freq_ref` (`cosmoglobe/sky/base_components.py`):
a non-quantity raises `TypeError`; a shape other than (1,1) or (3,1) raises
the shape `ValueError`; a unit not convertible to the default frequency unit
under the spectral equivalence raises `UnitsError`; otherwise the reference
frequency is accepted. -/
def validate_freq_ref : MaybeQuantity → Except VError Unit
  | .notQuantity => .error .typeErr
  | .quantity q =>
    if ¬ (q.shape = [1, 1] ∨ q.shape = [3, 1]) then .error .shapeErr
    else if ¬ spectralConvertible q.dim then .error .unitErr
    else .ok ()

/-- `DiffuseComponent._validate_amp` (`cosmoglobe/sky/base_components.py`):
a non-quantity raises `TypeError`; an invalid HEALPix pixel count raises
`NsideError`; then, when a reference frequency is present, a leading
dimension different from the reference frequency's raises the shape
`ValueError`, and a unit not convertible to the default output unit under the
brightness-temperature equivalence raises `UnitsError`. -/
def diffuseValidateAmp (freq_ref : Option PQ) :
    MaybeQuantity → Except VError Unit
  | .notQuantity => .error .typeErr
  | .quantity a =>
    if ¬ isValidNpix (trailingDim a.shape) then .error .resolutionErr
    else
      match freq_ref with
      | none => .ok ()
      | some fr =>
        if leadingDim a.shape ≠ leadingDim fr.shape then .error .shapeErr
        else if ¬ brightnessTempConvertible a.dim then .error .unitErr
        else .ok ()

/-- One step of `DiffuseComponent._validate_spectral_parameters`
(`cosmoglobe/sky/base_components.py`): a non-quantity raises `TypeError`;
rank `< 2` or a leading dimension different from the amplitude map's raises
the shape `ValueError`; when the second dimension exceeds 1, an invalid
HEALPix pixel count raises `NsideError`. -/
def diffuseValidateSpectralParam (ampLeadingDim : ℕ) :
    MaybeQuantity → Except VError Unit
  | .notQuantity => .error .typeErr
  | .quantity p =>
    if p.shape.length < 2 ∨ leadingDim p.shape ≠ ampLeadingDim then
      .error .shapeErr
    else if secondDim p.shape > 1 then
      if ¬ isValidNpix (trailingDim p.shape) then .error .resolutionErr
      else .ok ()
    else .ok ()

/-- `DiffuseComponent._validate_spectral_parameters` over the parameter
dictionary in iteration order: the first failing parameter's error is
raised. -/
def diffuseValidateSpectralParams (ampLeadingDim : ℕ) :
    List MaybeQuantity → Except VError Unit
  | [] => .ok ()
  | p :: ps =>
    match diffuseValidateSpectralParam ampLeadingDim p with
    | .ok _ => diffuseValidateSpectralParams ampLeadingDim ps
    | .error e => .error e

/-- `PointSourceComponent._validate_amp`
(`cosmoglobe/sky/base_components.py`): a non-quantity raises `TypeError`; a
leading dimension different from the reference frequency's raises the shape
`ValueError`; a unit whose quotient by steradian is not convertible to the
default output unit under the brightness-temperature equivalence raises
`UnitsError`.  No HEALPix pixel-count check is performed. -/
def pointSourceValidateAmp (fr : PQ) : MaybeQuantity → Except VError Unit
  | .notQuantity => .error .typeErr
  | .quantity a =>
    if leadingDim a.shape ≠ leadingDim fr.shape then .error .shapeErr
    else if ¬ brightnessTempConvertible (divDim a.dim steradianDim) then
      .error .unitErr
    else .ok ()

/-- `PointSourceComponent._validate_catalog`
(`cosmoglobe/sky/base_components.py`): the catalog's number of columns must
equal the amplitude's second dimension, else the `ValueError` shape error is
raised. -/
def pointSourceValidateCatalog (catalogShape ampShape : List ℕ) :
    Except VError Unit :=
  if secondDim catalogShape ≠ secondDim ampShape then .error .shapeErr
  else .ok ()


/-- Adding an elementwise difference back: for lists of equal length,
`ys + (xs - ys) = xs` pointwise under `zipWith`. -/
lemma zipWith_add_sub (xs ys : List ℚ) (h : ys.length = xs.length) :
    List.zipWith (fun a b => a + b) ys
      (List.zipWith (fun a b => a - b) xs ys) = xs := by
  induction xs generalizing ys with
  | nil => cases ys <;> simp_all
  | cons x xs ih =>
    cases ys with
    | nil => simp at h
    | cons y ys =>
      simp only [List.length_cons, Nat.succ.injEq] at h
      simp [ih ys h]

/-- Claim C1 counterexample.  The claim predicts the zero sentinel whenever
`freq_ref * peak_scale` leaves the closed template range, and an
interpolation ratio on the closed range's boundary.  On the template
(10, 1.0), (20, 2.0) with `nu_p = 30 GHz` (so `peak_scale = 1`): querying
`freq = 15` with `freq_ref = 30` (outside the table) returns the clamped
ratio `1.5 / 2 = 3/4`, not zero; and querying `freq = 10` (on the closed
interval's boundary, where the claim demands the ratio `1 / 1.5 = 2/3`)
returns the scalar zero sentinel. -/
theorem ame_claim_cex :
    ameGetFreqScaling [10, 20] [1, 2] [15] 30 30 = AmeOut.vals [3 / 4] ∧
    AmeOut.vals [(3 : ℚ) / 4] ≠ AmeOut.scalarZero ∧
    ameGetFreqScaling [10, 20] [1, 2] [10] 15 30 = AmeOut.scalarZero ∧
    AmeOut.scalarZero ≠ AmeOut.vals [(2 : ℚ) / 3] := by
  refine ⟨?_, by simp, ?_, by simp⟩ <;>
    norm_num [ameGetFreqScaling, listMin, listMax, npInterp, npInterpGo]

/-- Claim C1 (amended): the AME frequency scaling is the dimensionless
scalar zero sentinel precisely when some element of `freq * peak_scale`
fails to lie strictly between the minimum and the maximum of the template
frequencies (`freq_ref * peak_scale` is not tested, and the endpoints of the
table range themselves yield the sentinel); in every other case the result
is the elementwise ratio of the template linearly interpolated at
`freq * peak_scale` to the template interpolated at
`freq_ref * peak_scale`, where the interpolation clamps out-of-range
queries to the endpoint amplitudes. -/
theorem ame_scaling_characterization (tf ta fs : List ℚ) (fref nup : ℚ) :
    (ameGetFreqScaling tf ta fs fref nup = AmeOut.scalarZero ↔
      ¬ ∀ f ∈ fs, listMin tf < f * (30 / nup) ∧ f * (30 / nup) < listMax tf) ∧
    (ameGetFreqScaling tf ta fs fref nup = AmeOut.scalarZero ∨
      ameGetFreqScaling tf ta fs fref nup =
        AmeOut.vals (fs.map fun f =>
          npInterp (f * (30 / nup)) tf ta /
            npInterp (fref * (30 / nup)) tf ta)) := by
  by_cases h : ∀ f ∈ fs, listMin tf < f * (30 / nup) ∧ f * (30 / nup) < listMax tf
  · constructor
    · simp [ameGetFreqScaling, List.all_eq_true, h]
    · right
      simp only [ameGetFreqScaling, List.all_eq_true, Bool.and_eq_true,
        decide_eq_true_eq]
      rw [if_neg]
      simp only [not_not, List.all_eq_true, Bool.and_eq_true, decide_eq_true_eq]
      exact fun f hf => ⟨(h f hf).1, (h f hf).2⟩
  · constructor
    · simp only [ameGetFreqScaling, List.all_eq_true, Bool.and_eq_true,
        decide_eq_true_eq]
      rw [if_pos]
      · simp [h]
      · simpa using h
    · left
      simp only [ameGetFreqScaling, List.all_eq_true, Bool.and_eq_true,
        decide_eq_true_eq]
      rw [if_pos]
      simpa using h

/-- Claim C5: after `remove_dipole`, any later `get_dipole` (with any
`gal_cut`) returns the cached removed dipole — which equals the original
intensity map minus the post-removal intensity map — emits the diagnostic
warning that `gal_cut` is ignored, and leaves the state untouched; two later
calls with different `gal_cut` agree; and adding the returned dipole back to
the stored amplitude reproduces the original intensity map. -/
theorem cmb_dipole_cached_roundtrip
    (hpRem : List ℚ → ℚ → List ℚ) (s : CMBState) (g g2 g3 : ℚ)
    (hlen : (hpRem s.amp0 g).length = s.amp0.length) :
    getDipole hpRem (removeDipole hpRem s g) g2 =
      (List.zipWith (fun a b => a - b) s.amp0 (removeDipole hpRem s g).amp0,
        true, removeDipole hpRem s g) ∧
    (getDipole hpRem (removeDipole hpRem s g) g2).1 =
      (getDipole hpRem (removeDipole hpRem s g) g3).1 ∧
    List.zipWith (fun a b => a + b) (removeDipole hpRem s g).amp0
      (getDipole hpRem (removeDipole hpRem s g) g2).1 = s.amp0 := by
  refine ⟨rfl, rfl, ?_⟩
  simpa [getDipole, removeDipole] using
    zipWith_add_sub s.amp0 (hpRem s.amp0 g) hlen

/-- Claim C5 witness: the round trip at the concrete intensity map [1, 2]
with the dipole fit that subtracts `gal_cut` from every pixel. -/
theorem cmb_dipole_cached_roundtrip_witness :
    getDipole (fun xs g => xs.map (fun x => x - g)) (removeDipole (fun xs g => xs.map (fun x => x - g)) ⟨[1, 2], [], none⟩ 1) 2 =
      (List.zipWith (fun a b => a - b) (CMBState.amp0 ⟨[1, 2], [], none⟩) (removeDipole (fun xs g => xs.map (fun x => x - g)) ⟨[1, 2], [], none⟩ 1).amp0,
        true, removeDipole (fun xs g => xs.map (fun x => x - g)) ⟨[1, 2], [], none⟩ 1) ∧
    (getDipole (fun xs g => xs.map (fun x => x - g)) (removeDipole (fun xs g => xs.map (fun x => x - g)) ⟨[1, 2], [], none⟩ 1) 2).1 =
      (getDipole (fun xs g => xs.map (fun x => x - g)) (removeDipole (fun xs g => xs.map (fun x => x - g)) ⟨[1, 2], [], none⟩ 1) 3).1 ∧
    List.zipWith (fun a b => a + b) (removeDipole (fun xs g => xs.map (fun x => x - g)) ⟨[1, 2], [], none⟩ 1).amp0
      (getDipole (fun xs g => xs.map (fun x => x - g)) (removeDipole (fun xs g => xs.map (fun x => x - g)) ⟨[1, 2], [], none⟩ 1) 2).1 = CMBState.amp0 ⟨[1, 2], [], none⟩ :=
  cmb_dipole_cached_roundtrip (fun xs g => xs.map (fun x => x - g))
    ⟨[1, 2], [], none⟩ 1 2 3 (by simp)

/-- Claim C10: on an instance whose dipole has never been removed,
`get_dipole` computes the fitted dipole without mutating any state (the
post-call state is the pre-call state, no warning is emitted, no dipole is
cached), so a second call on the returned state performs a fresh fit that
honors its own `gal_cut` argument. -/
theorem cmb_get_dipole_pure
    (hpRem : List ℚ → ℚ → List ℚ) (s : CMBState) (g g2 : ℚ)
    (h : s.dipole = none) :
    getDipole hpRem s g =
      (List.zipWith (fun a b => a - b) s.amp0 (hpRem s.amp0 g), false, s) ∧
    (getDipole hpRem ((getDipole hpRem s g).2.2) g2).1 =
      List.zipWith (fun a b => a - b) s.amp0 (hpRem s.amp0 g2) := by
  simp [getDipole, h]

/-- Claim C10 witness: two `get_dipole` calls on a never-mutated instance
with the concrete map [1, 2] and a fit function that depends on `gal_cut`. -/
theorem cmb_get_dipole_pure_witness :
    getDipole (fun xs g => xs.map (fun _ => g)) ⟨[1, 2], [], none⟩ 1 =
      (List.zipWith (fun a b => a - b) (CMBState.amp0 ⟨[1, 2], [], none⟩)
        ((fun (xs : List ℚ) (g : ℚ) => xs.map (fun _ => g)) (CMBState.amp0 ⟨[1, 2], [], none⟩) 1), false, (⟨[1, 2], [], none⟩ : CMBState)) ∧
    (getDipole (fun xs g => xs.map (fun _ => g)) ((getDipole (fun xs g => xs.map (fun _ => g)) ⟨[1, 2], [], none⟩ 1).2.2) 2).1 =
      List.zipWith (fun a b => a - b) (CMBState.amp0 ⟨[1, 2], [], none⟩)
        ((fun (xs : List ℚ) (g : ℚ) => xs.map (fun _ => g)) (CMBState.amp0 ⟨[1, 2], [], none⟩) 2) :=
  cmb_get_dipole_pure (fun xs g => xs.map (fun _ => g)) ⟨[1, 2], [], none⟩ 1 2 rfl

/-- The Planck constant literal is positive. -/
lemma hPlanck_pos : 0 < hPlanck := by norm_num [hPlanck]

/-- The Boltzmann constant literal is positive. -/
lemma kBoltzmann_pos : 0 < kBoltzmann := by norm_num [kBoltzmann]

/-- The speed-of-light literal is positive. -/
lemma cLight_pos : 0 < cLight := by norm_num [cLight]

/-- The CMB monopole temperature literal is positive. -/
lemma T0cmb_pos : 0 < T0cmb := by norm_num [T0cmb]

/-- The exponential exceeds 1 at positive arguments. -/
lemma one_lt_exp_of_pos {x : ℝ} (hx : 0 < x) : 1 < Real.exp x := by
  calc (1 : ℝ) = Real.exp 0 := Real.exp_zero.symm
    _ < Real.exp x := Real.exp_lt_exp.mpr hx

/-- The Planck blackbody spectral radiance is positive at positive frequency
and temperature. -/
lemma blackbody_emission_pos {freq T : ℝ} (hf : 0 < freq) (hT : 0 < T) :
    0 < blackbody_emission freq T := by
  unfold blackbody_emission
  apply div_pos
  · exact div_pos (mul_pos (mul_pos (by norm_num : (0:ℝ) < 2) hPlanck_pos)
      (pow_pos hf 3)) (pow_pos cLight_pos 2)
  · have hx : 0 < hPlanck * freq / (kBoltzmann * T) :=
      div_pos (mul_pos hPlanck_pos hf) (mul_pos kBoltzmann_pos hT)
    linarith [one_lt_exp_of_pos hx]

/-- Claim C2: at `freq = freq_ref` (any positive reference frequency) the
Synchrotron power law is exactly 1 for every `beta`, the Radio power law is
exactly 1 for every `specind`, and the Dust modified blackbody is exactly 1
for every `beta` and every positive temperature. -/
theorem scaling_identity_at_reference (freq_ref beta specind T : ℝ)
    (hfr : 0 < freq_ref) (hT : 0 < T) :
    synchrotronGetFreqScaling freq_ref freq_ref beta = 1 ∧
    radioGetFreqScaling freq_ref freq_ref specind = 1 ∧
    dustGetFreqScaling freq_ref freq_ref beta T = 1 := by
  have h1 : freq_ref / freq_ref = 1 := div_self (ne_of_gt hfr)
  refine ⟨?_, ?_, ?_⟩
  · rw [synchrotronGetFreqScaling, h1, Real.one_rpow]
  · rw [radioGetFreqScaling, h1, Real.one_rpow]
  · rw [dustGetFreqScaling, h1, Real.one_rpow,
      div_self (ne_of_gt (blackbody_emission_pos hfr hT)), one_mul]

/-- Claim C2 witness: the identities at `freq_ref = 1`, `beta = -3`,
`specind = -1`, `T = 20`. -/
theorem scaling_identity_at_reference_witness :
    synchrotronGetFreqScaling 1 1 (-3) = 1 ∧
    radioGetFreqScaling 1 1 (-1) = 1 ∧
    dustGetFreqScaling 1 1 (-3) 20 = 1 :=
  scaling_identity_at_reference 1 (-3) (-1) 20 (by norm_num) (by norm_num)

/-- Claim C3: the free-free scaling computed by the source — Gaunt-factor
ratio first, then the `(nu_ref/nu)**2` factor, with `T_e` passing through the
(value-exact) float64 widening cast — equals the spec's closed form
`(freq_ref/freq)^2 * Gaunt(freq, Te) / Gaunt(freq_ref, Te)` with
`Gaunt(nu, Te) = ln( exp(5.96 − (√3/π)·ln(nu·(Te·1e−4)^−1.5)) + e )`, for
every frequency, reference frequency and electron temperature; the source's
Gaunt factor agrees with the spec's formula pointwise, and the double
precision cast leaves the represented value unchanged. -/
theorem freefree_scaling_formula (nu nu_ref T_e : ℝ) :
    linearOpticallyThinGetFreqScaling nu nu_ref T_e =
      (nu_ref / nu) ^ (2 : ℕ) *
        (gauntSpecFormula nu T_e / gauntSpecFormula nu_ref T_e) ∧
    gaunt_factor nu T_e = gauntSpecFormula nu T_e ∧
    astype_float64 T_e = T_e := by
  refine ⟨?_, rfl, rfl⟩
  rw [linearOpticallyThinGetFreqScaling]
  show gaunt_factor nu T_e / gaunt_factor nu_ref T_e * (nu_ref / nu) ^ (2:ℕ) = _
  rw [mul_comm]
  rfl

/-- Claim C4: the CMB frequency scaling carries a synthetic leading Stokes
axis of size 1, its single row is the elementwise thermodynamic-to-brightness
conversion, the scalar conversion equals `x^2 e^x / (e^x - 1)^2` with
`x = h·freq/(k_B·T_0)`, and it is strictly positive (hence finite: the
denominator never vanishes) at every positive frequency. -/
theorem cmb_scaling_spec (freqs : List ℝ) (nu : ℝ) (hnu : 0 < nu) :
    (cmbGetFreqScaling freqs).length = 1 ∧
    (cmbGetFreqScaling freqs).headD [] = freqs.map thermodynamicalToBrightness ∧
    thermodynamicalToBrightness nu =
      (hPlanck * nu / (kBoltzmann * T0cmb)) ^ (2 : ℕ) *
        Real.exp (hPlanck * nu / (kBoltzmann * T0cmb)) /
        (Real.exp (hPlanck * nu / (kBoltzmann * T0cmb)) - 1) ^ (2 : ℕ) ∧
    0 < thermodynamicalToBrightness nu := by
  refine ⟨rfl, rfl, rfl, ?_⟩
  have hx : 0 < hPlanck * nu / (kBoltzmann * T0cmb) :=
    div_pos (mul_pos hPlanck_pos hnu) (mul_pos kBoltzmann_pos T0cmb_pos)
  rw [thermodynamicalToBrightness]
  apply div_pos
  · exact mul_pos (pow_pos hx 2) (Real.exp_pos _)
  · have := one_lt_exp_of_pos hx
    have h2 : 0 < Real.exp (hPlanck * nu / (kBoltzmann * T0cmb)) - 1 := by
      linarith
    exact pow_pos h2 2

/-- Claim C4 witness: the CMB scaling at the single concrete frequency
1 GHz (in Hz). -/
theorem cmb_scaling_spec_witness :
    (cmbGetFreqScaling [1e9]).length = 1 ∧
    (cmbGetFreqScaling [1e9]).headD [] = [(1e9 : ℝ)].map thermodynamicalToBrightness ∧
    thermodynamicalToBrightness 1e9 =
      (hPlanck * 1e9 / (kBoltzmann * T0cmb)) ^ (2 : ℕ) *
        Real.exp (hPlanck * 1e9 / (kBoltzmann * T0cmb)) /
        (Real.exp (hPlanck * 1e9 / (kBoltzmann * T0cmb)) - 1) ^ (2 : ℕ) ∧
    0 < thermodynamicalToBrightness 1e9 :=
  cmb_scaling_spec [1e9] 1e9 (by norm_num)

/-- Claim C6: reference-frequency validation fails exactly per the
spec — `TypeError` on a non-quantity, the shape error when the shape is
neither (1,1) nor (3,1), the unit error when the unit is not convertible to
the default frequency unit directly or via the spectral equivalence, and
acceptance otherwise. -/
theorem validate_freq_ref_spec (v : PQ) :
    validate_freq_ref MaybeQuantity.notQuantity = Except.error VError.typeErr ∧
    (validate_freq_ref (MaybeQuantity.quantity v) = Except.error VError.shapeErr ↔
      v.shape ≠ [1, 1] ∧ v.shape ≠ [3, 1]) ∧
    (validate_freq_ref (MaybeQuantity.quantity v) = Except.error VError.unitErr ↔
      (v.shape = [1, 1] ∨ v.shape = [3, 1]) ∧ spectralConvertible v.dim = false) ∧
    (validate_freq_ref (MaybeQuantity.quantity v) = Except.ok () ↔
      (v.shape = [1, 1] ∨ v.shape = [3, 1]) ∧ spectralConvertible v.dim = true) := by
  refine ⟨rfl, ?_, ?_, ?_⟩ <;>
  · simp only [validate_freq_ref]
    split_ifs with h1 h2 <;> simp_all [not_or] <;> tauto

/-- Claim C7: diffuse amplitude validation raises exactly the specified
error kinds, in the source's checking order — `TypeError` on a non-quantity,
the resolution error on a pixel count that is not 12·nside² for a
power-of-two nside, the shape error on a leading dimension different from
the reference frequency's, the unit error on a unit not convertible to the
default output unit under the brightness-temperature equivalence, and
acceptance otherwise. -/
theorem diffuse_validate_amp_spec (fr : PQ) (v : PQ) :
    diffuseValidateAmp (some fr) MaybeQuantity.notQuantity =
      Except.error VError.typeErr ∧
    (diffuseValidateAmp (some fr) (MaybeQuantity.quantity v) =
        Except.error VError.resolutionErr ↔
      isValidNpix (trailingDim v.shape) = false) ∧
    (diffuseValidateAmp (some fr) (MaybeQuantity.quantity v) =
        Except.error VError.shapeErr ↔
      isValidNpix (trailingDim v.shape) = true ∧
        leadingDim v.shape ≠ leadingDim fr.shape) ∧
    (diffuseValidateAmp (some fr) (MaybeQuantity.quantity v) =
        Except.error VError.unitErr ↔
      isValidNpix (trailingDim v.shape) = true ∧
        leadingDim v.shape = leadingDim fr.shape ∧
        brightnessTempConvertible v.dim = false) ∧
    (diffuseValidateAmp (some fr) (MaybeQuantity.quantity v) = Except.ok () ↔
      isValidNpix (trailingDim v.shape) = true ∧
        leadingDim v.shape = leadingDim fr.shape ∧
        brightnessTempConvertible v.dim = true) := by
  refine ⟨rfl, ?_, ?_, ?_, ?_⟩ <;>
  · simp only [diffuseValidateAmp]
    split_ifs with h1 h2 h3 <;> simp_all

/-- Claim C8: a diffuse spectral parameter raises the shape error exactly
when its rank is below 2 or its leading dimension differs from the amplitude
map's, raises the resolution error exactly when (those checks passing) its
second dimension exceeds 1 without being a valid HEALPix pixel count, and is
accepted otherwise; a parameter of shape (S, 1) with matching S always
passes, and the dictionary-level validator accepts exactly when every
parameter passes. -/
theorem diffuse_validate_spectral_spec (amp0 : ℕ) (v : PQ)
    (ps : List MaybeQuantity) :
    (diffuseValidateSpectralParam amp0 (MaybeQuantity.quantity v) =
        Except.error VError.shapeErr ↔
      v.shape.length < 2 ∨ leadingDim v.shape ≠ amp0) ∧
    (diffuseValidateSpectralParam amp0 (MaybeQuantity.quantity v) =
        Except.error VError.resolutionErr ↔
      (2 ≤ v.shape.length ∧ leadingDim v.shape = amp0) ∧
        1 < secondDim v.shape ∧
        isValidNpix (trailingDim v.shape) = false) ∧
    (diffuseValidateSpectralParam amp0 (MaybeQuantity.quantity v) =
        Except.ok () ↔
      (2 ≤ v.shape.length ∧ leadingDim v.shape = amp0) ∧
        (secondDim v.shape ≤ 1 ∨ isValidNpix (trailingDim v.shape) = true)) ∧
    diffuseValidateSpectralParam amp0
      (MaybeQuantity.quantity ⟨[amp0, 1], v.dim⟩) = Except.ok () ∧
    (diffuseValidateSpectralParams amp0 ps = Except.ok () ↔
      ∀ p ∈ ps, diffuseValidateSpectralParam amp0 p = Except.ok ()) := by
  refine ⟨?_, ?_, ?_, ?_, ?_⟩
  · simp only [diffuseValidateSpectralParam]
    split_ifs with h1 h2 h3 <;> simp_all [not_or, not_lt]
  · simp only [diffuseValidateSpectralParam]
    split_ifs with h1 h2 h3 <;> simp_all [not_or, not_lt]
    intro hlen hlead _
    rcases h1 with h1 | h1
    · exact absurd hlen (by omega)
    · exact absurd hlead h1
  · simp only [diffuseValidateSpectralParam]
    split_ifs with h1 h2 h3 <;> simp_all [not_or, not_lt]
    omega
  · simp [diffuseValidateSpectralParam, leadingDim, secondDim]
  · induction ps with
    | nil => simp [diffuseValidateSpectralParams]
    | cons p ps ih =>
      cases hp : diffuseValidateSpectralParam amp0 p with
      | ok u => simp [diffuseValidateSpectralParams, hp, ih]
      | error e => simp [diffuseValidateSpectralParams, hp]

/-- Claim C9: point-source amplitude validation applies the same
leading-dimension rule as the diffuse family but never inspects the second
dimension for HEALPix validity (an amplitude of shape (S, n) in mJy passes
for every n), requires the unit divided by steradian to convert to the
default output unit on pain of the unit error, and the catalog check accepts
exactly when the catalog's column count equals the amplitude's second
dimension. -/
theorem pointsource_validate_spec (fr a : PQ) (catalogShape ampShape : List ℕ)
    (n : ℕ) :
    pointSourceValidateAmp fr MaybeQuantity.notQuantity =
      Except.error VError.typeErr ∧
    (pointSourceValidateAmp fr (MaybeQuantity.quantity a) =
        Except.error VError.shapeErr ↔
      leadingDim a.shape ≠ leadingDim fr.shape) ∧
    (pointSourceValidateAmp fr (MaybeQuantity.quantity a) =
        Except.error VError.unitErr ↔
      leadingDim a.shape = leadingDim fr.shape ∧
        brightnessTempConvertible (divDim a.dim steradianDim) = false) ∧
    (pointSourceValidateAmp fr (MaybeQuantity.quantity a) = Except.ok () ↔
      leadingDim a.shape = leadingDim fr.shape ∧
        brightnessTempConvertible (divDim a.dim steradianDim) = true) ∧
    pointSourceValidateAmp fr
      (MaybeQuantity.quantity ⟨[leadingDim fr.shape, n], janskyDim⟩) =
      Except.ok () ∧
    (pointSourceValidateCatalog catalogShape ampShape = Except.ok () ↔
      secondDim catalogShape = secondDim ampShape) := by
  have hjy : brightnessTempConvertible (divDim janskyDim steradianDim) = true := by
    decide
  refine ⟨rfl, ?_, ?_, ?_, ?_, ?_⟩
  · simp only [pointSourceValidateAmp]
    split_ifs with h1 h2 <;> simp_all
  · simp only [pointSourceValidateAmp]
    split_ifs with h1 h2 <;> simp_all
  · simp only [pointSourceValidateAmp]
    split_ifs with h1 h2 <;> simp_all
  · simp [pointSourceValidateAmp, leadingDim, hjy]
  · simp only [pointSourceValidateCatalog]
    split_ifs with h1 <;> simp_all

end Cosmoglobe
